import Mathlib

/-!
Shallow embedding of the MalinWallet backend authentication core
(`src/routes/auth.ts`, `src/services/userStore.ts`, `src/types/user.ts`)
and theorems settling the specification claims about it.

Request-body fields are modelled as `Option String` (`none` = the JSON field
is absent); the handlers' JS truthiness checks (`!email`) are modelled by
`truthy`.  Randomness (bcrypt salts, generated codes) is passed in as explicit
parameters.  Responses keep the literal HTTP status and body strings of the
source.
-/

/-- JS truthiness of an optional string request field: `undefined` and the
empty string are falsy, every other string is truthy. -/
def truthy : Option String → Bool
  | none => false
  | some s => !(s == "")

/-- Model of JS `String.prototype.toLowerCase` (character-wise lowering). -/
def jsToLowerCase (s : String) : String :=
  ⟨s.data.map Char.toLower⟩

/-- Model of JS `String.prototype.trim`: strip leading and trailing
whitespace. -/
def jsTrim (s : String) : String :=
  ⟨((s.data.dropWhile Char.isWhitespace).reverse.dropWhile Char.isWhitespace).reverse⟩

/-- `email.toLowerCase().trim()` as done by every handler in `auth.ts`. -/
def normalizeEmail (email : String) : String :=
  jsTrim (jsToLowerCase email)

/-- Model of a bcrypt hash: the salt randomness is explicit, and the hashed
password is carried so that `bcryptCompare` can realise the bcrypt contract
(`compare p h = true` iff `p` produced `h`). -/
structure BHash where
  salt : Nat
  pw : String
deriving DecidableEq, Repr

/-- Model of `bcrypt.hash(password, 10)`; the fresh salt is an explicit
parameter. -/
def bcryptHash (password : String) (salt : Nat) : BHash :=
  ⟨salt, password⟩

/-- Model of `bcrypt.compare(password, hash)`. -/
def bcryptCompare (password : String) (h : BHash) : Bool :=
  password == h.pw

/-- The claims carried by the JWT minted on login: `sub` (the account email)
and the wallet-address passthrough. Signature and expiry are outside the
model; a token is identified with its payload. -/
structure JwtPayload where
  sub : String
  walletAddress : Option String
deriving DecidableEq, Repr

/-- Model of `jwt.sign({sub, walletAddress}, JWT_SECRET, {expiresIn})`. -/
def jwtSign (payload : JwtPayload) : JwtPayload :=
  payload

/-- `UserRecord` from `src/types/user.ts`. -/
structure UserRecord where
  email : String
  passwordHash : BHash
  isVerified : Bool
  verificationCode : Option String := none
  resetCode : Option String := none
  walletAddress : Option String := none
deriving DecidableEq, Repr

/-- `userStore : Map<string, UserRecord>` from `src/services/userStore.ts`,
modelled as an association list with exact string keys. -/
abbrev UserStore := List (String × UserRecord)

/-- `Map.get`. -/
def UserStore.get : UserStore → String → Option UserRecord
  | [], _ => none
  | (k, v) :: rest, key => if k == key then some v else UserStore.get rest key

/-- `Map.set`: replaces the value at an existing key, otherwise appends. -/
def UserStore.set : UserStore → String → UserRecord → UserStore
  | [], key, v => [(key, v)]
  | (k, w) :: rest, key, v =>
      if k == key then (key, v) :: rest else (k, w) :: UserStore.set rest key v

/-- `Map.has`. -/
def UserStore.has (s : UserStore) (key : String) : Bool :=
  (s.get key).isSome

/-- An HTTP response: success with a status and a typed body, or an error
with a status and the literal `{error: ...}` string. -/
inductive Resp (α : Type) where
  | ok (status : Nat) (body : α)
  | err (status : Nat) (error : String)
deriving DecidableEq, Repr

/-- Success body of `POST /auth/login`. -/
structure LoginBody where
  accessToken : JwtPayload
  email : String
  walletAddress : Option String
deriving DecidableEq, Repr

/-- Modelled from the spec: `generateVerificationCode` lives in
`src/utils/random.ts`, which is not among the sources; per the spec it
returns a fixed-length numeric string of 6 digits.  This predicate describes
its codomain; theorems about stored codes hypothesise it. -/
def isGeneratedCode (c : String) : Bool :=
  c.length == 6 && c.data.all Char.isDigit

/-- `POST /auth/signup` handler.  The fresh bcrypt salt and the code produced
by `generateVerificationCode()` are explicit parameters. -/
def signup (store : UserStore) (email password walletAddress : Option String)
    (salt : Nat) (verificationCode : String) : Resp String × UserStore :=
  if !truthy email || !truthy password then
    (.err 400 "Email and password are required", store)
  else
    let normalizedEmail := normalizeEmail (email.getD "")
    if store.has normalizedEmail then
      (.err 409 "User already exists", store)
    else
      let passwordHash := bcryptHash (password.getD "") salt
      let user : UserRecord :=
        { email := normalizedEmail
          passwordHash := passwordHash
          isVerified := false
          verificationCode := some verificationCode
          resetCode := none
          walletAddress := if truthy walletAddress then walletAddress else none }
      (.ok 201 "User created successfully. Please check your email for verification code.",
        store.set normalizedEmail user)

/-- `POST /auth/verify-email` handler. -/
def verifyEmail (store : UserStore) (email code : Option String) :
    Resp String × UserStore :=
  if !truthy email || !truthy code then
    (.err 400 "Email and code are required", store)
  else
    let normalizedEmail := normalizeEmail (email.getD "")
    match store.get normalizedEmail with
    | none => (.err 404 "User not found", store)
    | some user =>
      if user.isVerified then
        (.err 400 "Email already verified", store)
      else if user.verificationCode ≠ code then
        (.err 400 "Invalid verification code", store)
      else
        let user' := { user with isVerified := true, verificationCode := none }
        (.ok 200 "Email verified successfully", store.set normalizedEmail user')

/-- `POST /auth/login` handler (read-only on the store). -/
def login (store : UserStore) (email password : Option String) : Resp LoginBody :=
  if !truthy email || !truthy password then
    .err 400 "Email and password are required"
  else
    let normalizedEmail := normalizeEmail (email.getD "")
    match store.get normalizedEmail with
    | none => .err 401 "Invalid credentials"
    | some user =>
      if !user.isVerified then
        .err 403 "Email not verified. Please verify your email first."
      else if !bcryptCompare (password.getD "") user.passwordHash then
        .err 401 "Invalid credentials"
      else
        let token := jwtSign { sub := user.email, walletAddress := user.walletAddress }
        .ok 200 { accessToken := token
                  email := user.email
                  walletAddress := user.walletAddress }

/-- `POST /auth/request-reset` handler.  The code produced by
`generateVerificationCode()` is an explicit parameter (only used when the
account exists, as in the source). -/
def requestReset (store : UserStore) (email : Option String)
    (resetCode : String) : Resp String × UserStore :=
  if !truthy email then
    (.err 400 "Email is required", store)
  else
    let normalizedEmail := normalizeEmail (email.getD "")
    let store' :=
      match store.get normalizedEmail with
      | none => store
      | some user => store.set normalizedEmail { user with resetCode := some resetCode }
    (.ok 200 "If the email exists, a password reset code has been sent.", store')

/-- `POST /auth/confirm-reset` handler.  The fresh bcrypt salt is an explicit
parameter. -/
def confirmReset (store : UserStore) (email code newPassword : Option String)
    (salt : Nat) : Resp String × UserStore :=
  if !truthy email || !truthy code || !truthy newPassword then
    (.err 400 "Email, code, and new password are required", store)
  else
    let normalizedEmail := normalizeEmail (email.getD "")
    match store.get normalizedEmail with
    | none => (.err 404 "User not found", store)
    | some user =>
      if user.resetCode ≠ code then
        (.err 400 "Invalid reset code", store)
      else
        let user' := { user with
                        passwordHash := bcryptHash (newPassword.getD "") salt
                        resetCode := none }
        (.ok 200 "Password reset successfully", store.set normalizedEmail user')

example : normalizeEmail "  A@X.Com " = "a@x.com" := by decide

example :
    (signup [] (some "a@x.com") (some "pw") none 0 "123456").2.get "a@x.com" =
      some { email := "a@x.com", passwordHash := ⟨0, "pw"⟩, isVerified := false,
             verificationCode := some "123456", resetCode := none,
             walletAddress := none } := by decide

/-! ### Helper lemmas -/

theorem UserStore.get_set_self (s : UserStore) (k : String) (v : UserRecord) :
    (s.set k v).get k = some v := by
  induction s with
  | nil => simp [UserStore.set, UserStore.get]
  | cons hd tl ih =>
    by_cases h : hd.1 == k
    · simp [UserStore.set, UserStore.get, h]
    · simpa [UserStore.set, UserStore.get, h] using ih

theorem truthy_some (s : String) : truthy (some s) = !(s == "") := rfl

theorem truthy_some_of_ne (s : String) (h : s ≠ "") : truthy (some s) = true := by
  simp [truthy, h]

theorem isGeneratedCode_ne_empty (c : String) (h : isGeneratedCode c = true) :
    c ≠ "" := by
  intro he
  subst he
  simp [isGeneratedCode] at h

theorem toLower_of_whitespace (c : Char) (h : c.isWhitespace = true) :
    c.toLower = c := by
  simp only [Char.isWhitespace, Bool.or_eq_true, decide_eq_true_eq] at h
  obtain ((h | h) | h) | h := h <;> subst h <;> decide

theorem normalizeEmail_of_whitespace (e : String)
    (h : e.data.all Char.isWhitespace = true) : normalizeEmail e = "" := by
  simp only [List.all_eq_true] at h
  have hmap : e.data.map Char.toLower = e.data := by
    conv_rhs => rw [← List.map_id e.data]
    exact List.map_congr_left (fun a ha => toLower_of_whitespace a (h a ha))
  have hdrop : (e.data.map Char.toLower).dropWhile Char.isWhitespace = [] := by
    rw [hmap]
    exact List.dropWhile_eq_nil_iff.mpr h
  show jsTrim (jsToLowerCase e) = ""
  simp [jsTrim, jsToLowerCase, hdrop]

/-! ### Concrete data for witnesses and counterexamples -/

/-- A verified account holding the hash of password `pw1`. -/
def uVerified : UserRecord :=
  { email := "a@x.com", passwordHash := ⟨0, "pw1"⟩, isVerified := true,
    verificationCode := none, resetCode := none, walletAddress := none }

/-- A store holding just `uVerified`. -/
def storeVerified : UserStore := [("a@x.com", uVerified)]

/-- An unverified account with a pending verification code. -/
def uUnverified : UserRecord :=
  { email := "b@x.com", passwordHash := ⟨0, "pw1"⟩, isVerified := false,
    verificationCode := some "654321", resetCode := none, walletAddress := none }

/-- A store holding just `uUnverified`. -/
def storeUnverified : UserStore := [("b@x.com", uUnverified)]

/-! ### C2: login does not reveal account existence -/

/-- C2 counterexample: the empty string is always a wrong password for a
stored account (stored hashes come from non-empty passwords), yet a login
run with it returns HTTP 400 `Email and password are required` — the
missing-input error — while the nonexistent-email run returns HTTP 401
`Invalid credentials`: the two runs are not identical as claimed. -/
theorem login_non_enumeration_empty_password_cex :
    storeVerified.get (normalizeEmail "a@x.com") = some uVerified ∧
    uVerified.isVerified = true ∧
    bcryptCompare "" uVerified.passwordHash = false ∧
    storeVerified.get (normalizeEmail "nobody@x.com") = none ∧
    login storeVerified (some "nobody@x.com") (some "pw") =
      .err 401 "Invalid credentials" ∧
    login storeVerified (some "a@x.com") (some "") =
      .err 400 "Email and password are required" ∧
    login storeVerified (some "a@x.com") (some "") ≠
      .err 401 "Invalid credentials" := by decide

/-- C2 (amended): with non-empty inputs, a login against an email with no
account and a login with a wrong non-empty password against an existing
verified account return the identical error — HTTP 401 with the body
`Invalid credentials` — so the response does not reveal whether the email
has an account; the empty-string wrong password instead hits the
missing-input check and returns HTTP 400. -/
theorem login_non_enumeration
    (store : UserStore) (e1 p1 e2 p2 : String) (u : UserRecord)
    (he1 : e1 ≠ "") (hp1 : p1 ≠ "") (he2 : e2 ≠ "") (hp2 : p2 ≠ "")
    (hnone : store.get (normalizeEmail e1) = none)
    (hsome : store.get (normalizeEmail e2) = some u)
    (hver : u.isVerified = true)
    (hpw : bcryptCompare p2 u.passwordHash = false) :
    login store (some e1) (some p1) = .err 401 "Invalid credentials" ∧
    login store (some e2) (some p2) = .err 401 "Invalid credentials" ∧
    login store (some e2) (some "") =
      .err 400 "Email and password are required" := by
  refine ⟨?_, ?_, ?_⟩
  · simp [login, truthy, he1, hp1, hnone]
  · simp [login, truthy, he2, hp2, hsome, hver, hpw]
  · simp [login, truthy]

/-- Witness for C2 (amended) at a concrete store. -/
theorem login_non_enumeration_witness :
    (("nobody@x.com" : String) ≠ "" ∧ ("pw" : String) ≠ "" ∧
      ("a@x.com" : String) ≠ "" ∧ ("wrong" : String) ≠ "" ∧
      storeVerified.get (normalizeEmail "nobody@x.com") = none ∧
      storeVerified.get (normalizeEmail "a@x.com") = some uVerified ∧
      uVerified.isVerified = true ∧
      bcryptCompare "wrong" uVerified.passwordHash = false) ∧
    (login storeVerified (some "nobody@x.com") (some "pw") =
        .err 401 "Invalid credentials" ∧
      login storeVerified (some "a@x.com") (some "wrong") =
        .err 401 "Invalid credentials" ∧
      login storeVerified (some "a@x.com") (some "") =
        .err 400 "Email and password are required") :=
  ⟨by decide,
    login_non_enumeration storeVerified "nobody@x.com" "pw" "a@x.com" "wrong"
      uVerified (by decide) (by decide) (by decide) (by decide) (by decide)
      (by decide) (by decide) (by decide)⟩

/-! ### C3: requestReset does not reveal account existence -/

/-- C3: for every non-empty email, `requestReset` returns HTTP 200 with the
same message body whether or not an account exists for the normalized email,
and when an account exists the supplied fresh reset code is stored on it. -/
theorem requestReset_non_enumeration
    (store : UserStore) (e c : String) (he : e ≠ "") :
    (requestReset store (some e) c).1 =
      .ok 200 "If the email exists, a password reset code has been sent." ∧
    ∀ u, store.get (normalizeEmail e) = some u →
      ((requestReset store (some e) c).2).get (normalizeEmail e) =
        some { u with resetCode := some c } := by
  refine ⟨?_, fun u hu => ?_⟩
  · simp [requestReset, truthy, he]
  · simp [requestReset, truthy, he, hu, UserStore.get_set_self]

/-- Witness for C3 at a concrete store. -/
theorem requestReset_non_enumeration_witness :
    (("a@x.com" : String) ≠ "") ∧
    ((requestReset storeVerified (some "a@x.com") "222222").1 =
        .ok 200 "If the email exists, a password reset code has been sent." ∧
      ∀ u, storeVerified.get (normalizeEmail "a@x.com") = some u →
        ((requestReset storeVerified (some "a@x.com") "222222").2).get
            (normalizeEmail "a@x.com") = some { u with resetCode := some "222222" }) :=
  ⟨by decide, requestReset_non_enumeration storeVerified "a@x.com" "222222" (by decide)⟩

/-! ### C1: unverified accounts can never log in -/

/-- C1 counterexample: with an unverified account stored, login with the
empty-string password returns HTTP 400 `Email and password are required`
(the missing-input error), not the claimed HTTP 403 `NotVerified`. -/
theorem login_unverified_empty_password_cex :
    storeUnverified.get (normalizeEmail "b@x.com") = some uUnverified ∧
    uUnverified.isVerified = false ∧
    login storeUnverified (some "b@x.com") (some "") =
      .err 400 "Email and password are required" ∧
    login storeUnverified (some "b@x.com") (some "") ≠
      .err 403 "Email not verified. Please verify your email first." := by decide

/-- C1 (amended): for a stored unverified account, login with any non-empty
password fails with HTTP 403 `NotVerified`; with the empty password it fails
with HTTP 400 `InvalidInput`; in all cases it never succeeds and never
returns `Invalid credentials`; and signup immediately followed by login with
the correct password yields the 403 `NotVerified` error. -/
theorem login_unverified_never_succeeds
    (store : UserStore) (e p : String) (u : UserRecord)
    (he : e ≠ "")
    (hu : store.get (normalizeEmail e) = some u)
    (hnv : u.isVerified = false)
    (store2 : UserStore) (e2 p2 : String) (wa : Option String)
    (salt : Nat) (vc : String)
    (he2 : e2 ≠ "") (hp2 : p2 ≠ "")
    (hfresh : store2.has (normalizeEmail e2) = false) :
    (p ≠ "" → login store (some e) (some p) =
      .err 403 "Email not verified. Please verify your email first.") ∧
    (p = "" → login store (some e) (some p) =
      .err 400 "Email and password are required") ∧
    login store (some e) (some p) ≠ .err 401 "Invalid credentials" ∧
    (∀ st b, login store (some e) (some p) ≠ .ok st b) ∧
    login (signup store2 (some e2) (some p2) wa salt vc).2 (some e2) (some p2) =
      .err 403 "Email not verified. Please verify your email first." := by
  have hmain : ∀ q : String, q ≠ "" → login store (some e) (some q) =
      .err 403 "Email not verified. Please verify your email first." := by
    intro q hq
    simp [login, truthy, he, hq, hu, hnv]
  have hempty : login store (some e) (some "") =
      .err 400 "Email and password are required" := by
    simp [login, truthy]
  refine ⟨fun hp => hmain p hp, fun hp => hp ▸ hempty, ?_, ?_, ?_⟩
  · by_cases hp : p = ""
    · rw [hp, hempty]; simp
    · rw [hmain p hp]; simp
  · intro st b
    by_cases hp : p = ""
    · rw [hp, hempty]; simp
    · rw [hmain p hp]; simp
  · have hget : ((signup store2 (some e2) (some p2) wa salt vc).2).get
        (normalizeEmail e2) =
        some { email := normalizeEmail e2, passwordHash := ⟨salt, p2⟩,
               isVerified := false, verificationCode := some vc,
               resetCode := none,
               walletAddress := if truthy wa then wa else none } := by
      simp [signup, truthy, he2, hp2, hfresh, bcryptHash, UserStore.get_set_self]
    simp [login, truthy, he2, hp2, hget]

/-- Witness for C1 (amended) at a concrete store. -/
theorem login_unverified_never_succeeds_witness :
    (("b@x.com" : String) ≠ "" ∧
      storeUnverified.get (normalizeEmail "b@x.com") = some uUnverified ∧
      uUnverified.isVerified = false ∧
      ("c@x.com" : String) ≠ "" ∧ ("pw" : String) ≠ "" ∧
      UserStore.has [] (normalizeEmail "c@x.com") = false) ∧
    ((("x" : String) ≠ "" → login storeUnverified (some "b@x.com") (some "x") =
        .err 403 "Email not verified. Please verify your email first.") ∧
      (("x" : String) = "" → login storeUnverified (some "b@x.com") (some "x") =
        .err 400 "Email and password are required") ∧
      login storeUnverified (some "b@x.com") (some "x") ≠
        .err 401 "Invalid credentials" ∧
      (∀ st b, login storeUnverified (some "b@x.com") (some "x") ≠ .ok st b) ∧
      login (signup [] (some "c@x.com") (some "pw") none 0 "111111").2
          (some "c@x.com") (some "pw") =
        .err 403 "Email not verified. Please verify your email first.") :=
  ⟨by decide,
    login_unverified_never_succeeds storeUnverified "b@x.com" "x" uUnverified
      (by decide) (by decide) (by decide) [] "c@x.com" "pw" none 0 "111111"
      (by decide) (by decide) (by decide)⟩

/-! ### C4: verifyEmail with the correct code succeeds exactly once -/

/-- C4 counterexample: after the first `verifyEmail` call succeeds, a second
call with the empty-string code returns HTTP 400 `Email and code are
required` (the missing-input error), not the claimed `Email already
verified` — so not every second call for the account yields
`AlreadyVerified`. -/
theorem verifyEmail_second_call_empty_code_cex :
    (verifyEmail storeUnverified (some "b@x.com") (some "654321")).1 =
      .ok 200 "Email verified successfully" ∧
    (verifyEmail (verifyEmail storeUnverified (some "b@x.com") (some "654321")).2
        (some "b@x.com") (some "")).1 =
      .err 400 "Email and code are required" ∧
    (verifyEmail (verifyEmail storeUnverified (some "b@x.com") (some "654321")).2
        (some "b@x.com") (some "")).1 ≠
      .err 400 "Email already verified" := by decide

/-- C4 (amended): for a stored unverified account whose verification code is
a generated (6-digit, hence non-empty) code, `verifyEmail` with that code
succeeds with HTTP 200, sets `isVerified`, clears `verificationCode` and
persists the record; any second call for the account with a NON-EMPTY code —
including the same code — fails with HTTP 400 `Email already verified` and
leaves the store unchanged, while a second call with the empty code fails
with the missing-input error instead, the store equally unchanged. -/
theorem verifyEmail_correct_code_once
    (store : UserStore) (e c : String) (u : UserRecord)
    (he : e ≠ "")
    (hu : store.get (normalizeEmail e) = some u)
    (hnv : u.isVerified = false)
    (hc : u.verificationCode = some c)
    (hgen : isGeneratedCode c = true) :
    (verifyEmail store (some e) (some c)).1 =
      .ok 200 "Email verified successfully" ∧
    ((verifyEmail store (some e) (some c)).2).get (normalizeEmail e) =
      some { u with isVerified := true, verificationCode := none } ∧
    (∀ c2 : String, c2 ≠ "" →
      verifyEmail (verifyEmail store (some e) (some c)).2 (some e) (some c2) =
        (.err 400 "Email already verified",
          (verifyEmail store (some e) (some c)).2)) ∧
    verifyEmail (verifyEmail store (some e) (some c)).2 (some e) (some "") =
      (.err 400 "Email and code are required",
        (verifyEmail store (some e) (some c)).2) := by
  have hce : c ≠ "" := isGeneratedCode_ne_empty c hgen
  have h1 : verifyEmail store (some e) (some c) =
      (.ok 200 "Email verified successfully",
        store.set (normalizeEmail e) { u with isVerified := true, verificationCode := none }) := by
    simp [verifyEmail, truthy, he, hce, hu, hnv, hc]
  have h2 : ((verifyEmail store (some e) (some c)).2).get (normalizeEmail e) =
      some { u with isVerified := true, verificationCode := none } := by
    rw [h1]
    exact UserStore.get_set_self store (normalizeEmail e) _
  refine ⟨by rw [h1], h2, ?_, ?_⟩
  · intro c2 hc2
    set s2 := (verifyEmail store (some e) (some c)).2 with hs2
    simp [verifyEmail, truthy, he, hc2, h2]
  · set s2 := (verifyEmail store (some e) (some c)).2 with hs2
    simp [verifyEmail, truthy]

/-- Witness for C4 (amended) at a concrete store. -/
theorem verifyEmail_correct_code_once_witness :
    (("b@x.com" : String) ≠ "" ∧
      storeUnverified.get (normalizeEmail "b@x.com") = some uUnverified ∧
      uUnverified.isVerified = false ∧
      uUnverified.verificationCode = some "654321" ∧
      isGeneratedCode "654321" = true) ∧
    ((verifyEmail storeUnverified (some "b@x.com") (some "654321")).1 =
        .ok 200 "Email verified successfully" ∧
      ((verifyEmail storeUnverified (some "b@x.com") (some "654321")).2).get
          (normalizeEmail "b@x.com") =
        some { uUnverified with isVerified := true, verificationCode := none } ∧
      (∀ c2 : String, c2 ≠ "" →
        verifyEmail (verifyEmail storeUnverified (some "b@x.com") (some "654321")).2
            (some "b@x.com") (some c2) =
          (.err 400 "Email already verified",
            (verifyEmail storeUnverified (some "b@x.com") (some "654321")).2)) ∧
      verifyEmail (verifyEmail storeUnverified (some "b@x.com") (some "654321")).2
          (some "b@x.com") (some "") =
        (.err 400 "Email and code are required",
          (verifyEmail storeUnverified (some "b@x.com") (some "654321")).2)) :=
  ⟨by decide,
    verifyEmail_correct_code_once storeUnverified "b@x.com" "654321" uUnverified
      (by decide) (by decide) (by decide) (by decide) (by decide)⟩

/-! ### C5: verifyEmail with a wrong code -/

/-- C5 counterexample: for a stored unverified account, `verifyEmail` with
the empty-string code (which differs from the stored code) returns HTTP 400
`Email and code are required` (the missing-input error), not the claimed
`Invalid verification code`. -/
theorem verifyEmail_wrong_code_empty_cex :
    storeUnverified.get (normalizeEmail "b@x.com") = some uUnverified ∧
    uUnverified.isVerified = false ∧
    uUnverified.verificationCode ≠ some "" ∧
    verifyEmail storeUnverified (some "b@x.com") (some "") =
      (.err 400 "Email and code are required", storeUnverified) ∧
    (verifyEmail storeUnverified (some "b@x.com") (some "")).1 ≠
      .err 400 "Invalid verification code" := by decide

/-- C5 (amended): for a stored unverified account, `verifyEmail` with any
non-empty code different from the stored verification code fails with
HTTP 400 `Invalid verification code` and returns the store unchanged; with
the empty code it fails with HTTP 400 `Email and code are required`, also
leaving the store unchanged. -/
theorem verifyEmail_wrong_code_unchanged
    (store : UserStore) (e c : String) (u : UserRecord)
    (he : e ≠ "")
    (hu : store.get (normalizeEmail e) = some u)
    (hnv : u.isVerified = false)
    (hne : u.verificationCode ≠ some c) :
    (c ≠ "" → verifyEmail store (some e) (some c) =
      (.err 400 "Invalid verification code", store)) ∧
    verifyEmail store (some e) (some "") =
      (.err 400 "Email and code are required", store) := by
  refine ⟨fun hc => ?_, ?_⟩
  · simp [verifyEmail, truthy, he, hc, hu, hnv, hne]
  · simp [verifyEmail, truthy]

/-- Witness for C5 (amended) at a concrete store. -/
theorem verifyEmail_wrong_code_unchanged_witness :
    (("b@x.com" : String) ≠ "" ∧
      storeUnverified.get (normalizeEmail "b@x.com") = some uUnverified ∧
      uUnverified.isVerified = false ∧
      uUnverified.verificationCode ≠ some "999999") ∧
    ((("999999" : String) ≠ "" →
        verifyEmail storeUnverified (some "b@x.com") (some "999999") =
          (.err 400 "Invalid verification code", storeUnverified)) ∧
      verifyEmail storeUnverified (some "b@x.com") (some "") =
        (.err 400 "Email and code are required", storeUnverified)) :=
  ⟨by decide,
    verifyEmail_wrong_code_unchanged storeUnverified "b@x.com" "999999" uUnverified
      (by decide) (by decide) (by decide) (by decide)⟩

/-! ### C6: signup → verifyEmail → login round-trip -/

/-- C6: for valid (truthy) email and password and a fresh normalized email,
`signup`, then `verifyEmail` with the code stored by signup, then `login`
with the original password all succeed, and the login response carries a
token whose `sub` claim is the normalized email. -/
theorem signup_verify_login_roundtrip
    (store : UserStore) (e p : String) (wa : Option String)
    (salt : Nat) (vc : String)
    (he : e ≠ "") (hp : p ≠ "")
    (hfresh : store.has (normalizeEmail e) = false)
    (hgen : isGeneratedCode vc = true) :
    (signup store (some e) (some p) wa salt vc).1 =
      .ok 201 "User created successfully. Please check your email for verification code." ∧
    (verifyEmail (signup store (some e) (some p) wa salt vc).2
        (some e) (some vc)).1 =
      .ok 200 "Email verified successfully" ∧
    login (verifyEmail (signup store (some e) (some p) wa salt vc).2
        (some e) (some vc)).2 (some e) (some p) =
      .ok 200 { accessToken := { sub := normalizeEmail e,
                                 walletAddress := if truthy wa then wa else none },
                email := normalizeEmail e,
                walletAddress := if truthy wa then wa else none } := by
  have hvc : vc ≠ "" := isGeneratedCode_ne_empty vc hgen
  have h1 : signup store (some e) (some p) wa salt vc =
      (.ok 201 "User created successfully. Please check your email for verification code.",
        store.set (normalizeEmail e)
          { email := normalizeEmail e, passwordHash := ⟨salt, p⟩,
            isVerified := false, verificationCode := some vc,
            resetCode := none,
            walletAddress := if truthy wa then wa else none }) := by
    simp [signup, truthy, he, hp, hfresh, bcryptHash]
  have hget1 : ((signup store (some e) (some p) wa salt vc).2).get
      (normalizeEmail e) =
      some { email := normalizeEmail e, passwordHash := ⟨salt, p⟩,
             isVerified := false, verificationCode := some vc,
             resetCode := none,
             walletAddress := if truthy wa then wa else none } := by
    rw [h1]
    exact UserStore.get_set_self _ _ _
  set s1 := (signup store (some e) (some p) wa salt vc).2 with hs1
  have h2 : verifyEmail s1 (some e) (some vc) =
      (.ok 200 "Email verified successfully",
        s1.set (normalizeEmail e)
          { email := normalizeEmail e, passwordHash := ⟨salt, p⟩,
            isVerified := true, verificationCode := none,
            resetCode := none,
            walletAddress := if truthy wa then wa else none }) := by
    simp [verifyEmail, truthy, he, hvc, hget1]
  have hget2 : ((verifyEmail s1 (some e) (some vc)).2).get (normalizeEmail e) =
      some { email := normalizeEmail e, passwordHash := ⟨salt, p⟩,
             isVerified := true, verificationCode := none,
             resetCode := none,
             walletAddress := if truthy wa then wa else none } := by
    rw [h2]
    exact UserStore.get_set_self _ _ _
  refine ⟨by rw [h1], by rw [h2], ?_⟩
  set s2 := (verifyEmail s1 (some e) (some vc)).2 with hs2
  simp [login, truthy, he, hp, hget2, bcryptCompare, jwtSign]

/-- Witness for C6 at the empty store. -/
theorem signup_verify_login_roundtrip_witness :
    (("a@x.com" : String) ≠ "" ∧ ("pw" : String) ≠ "" ∧
      UserStore.has [] (normalizeEmail "a@x.com") = false ∧
      isGeneratedCode "123456" = true) ∧
    ((signup [] (some "a@x.com") (some "pw") none 0 "123456").1 =
        .ok 201 "User created successfully. Please check your email for verification code." ∧
      (verifyEmail (signup [] (some "a@x.com") (some "pw") none 0 "123456").2
          (some "a@x.com") (some "123456")).1 =
        .ok 200 "Email verified successfully" ∧
      login (verifyEmail (signup [] (some "a@x.com") (some "pw") none 0 "123456").2
          (some "a@x.com") (some "123456")).2 (some "a@x.com") (some "pw") =
        .ok 200 { accessToken := { sub := normalizeEmail "a@x.com",
                                   walletAddress := if truthy none then none else none },
                  email := normalizeEmail "a@x.com",
                  walletAddress := if truthy none then none else none }) :=
  ⟨by decide,
    signup_verify_login_roundtrip [] "a@x.com" "pw" none 0 "123456"
      (by decide) (by decide) (by decide) (by decide)⟩

/-! ### C7: password reset round-trip -/

/-- An unverified account with both a pending verification code and a
pending reset code (reachable: signup, then request-reset before verifying,
since request-reset imposes no verification precondition). -/
def uResetPending : UserRecord :=
  { email := "c@x.com", passwordHash := ⟨0, "p1"⟩, isVerified := false,
    verificationCode := some "654321", resetCode := some "111111",
    walletAddress := none }

/-- A store holding just `uResetPending`. -/
def storeResetPending : UserStore := [("c@x.com", uResetPending)]

/-- C7 counterexample: for an unverified account whose hash was produced
from `p1` and whose reset code is stored, `confirmReset` with the correct
code succeeds (it never checks `isVerified`), but the subsequent
`login(e, p2)` does not succeed — it fails with HTTP 403 `NotVerified` —
and `login(e, p1)` also fails with 403, not `InvalidCredentials`. -/
theorem confirmReset_login_unverified_cex :
    uResetPending.passwordHash = bcryptHash "p1" 0 ∧
    uResetPending.resetCode = some "111111" ∧
    (confirmReset storeResetPending (some "c@x.com") (some "111111")
        (some "p2") 1).1 =
      .ok 200 "Password reset successfully" ∧
    login (confirmReset storeResetPending (some "c@x.com") (some "111111")
        (some "p2") 1).2 (some "c@x.com") (some "p2") =
      .err 403 "Email not verified. Please verify your email first." ∧
    login (confirmReset storeResetPending (some "c@x.com") (some "111111")
        (some "p2") 1).2 (some "c@x.com") (some "p1") ≠
      .err 401 "Invalid credentials" := by decide

/-- C7 (amended): for a VERIFIED account whose hash was produced from `p1`
and whose stored reset code is `code`, `confirmReset(e, code, p2)` succeeds
(overwriting the hash with a hash of `p2` and clearing the reset code);
afterwards `login(e, p2)` succeeds and, provided the non-empty old password
`p1` differs from `p2`, `login(e, p1)` fails with `Invalid credentials`. -/
theorem confirmReset_rotates_password
    (store : UserStore) (e p1 p2 code : String) (u : UserRecord)
    (salt0 salt : Nat)
    (he : e ≠ "") (hcode : code ≠ "") (hp2 : p2 ≠ "") (hp1 : p1 ≠ "")
    (hu : store.get (normalizeEmail e) = some u)
    (hver : u.isVerified = true)
    (hhash : u.passwordHash = bcryptHash p1 salt0)
    (hreset : u.resetCode = some code)
    (hne : p1 ≠ p2) :
    (confirmReset store (some e) (some code) (some p2) salt).1 =
      .ok 200 "Password reset successfully" ∧
    ((confirmReset store (some e) (some code) (some p2) salt).2).get
      (normalizeEmail e) =
      some { u with passwordHash := bcryptHash p2 salt, resetCode := none } ∧
    login (confirmReset store (some e) (some code) (some p2) salt).2
        (some e) (some p2) =
      .ok 200 { accessToken := { sub := u.email, walletAddress := u.walletAddress },
                email := u.email, walletAddress := u.walletAddress } ∧
    login (confirmReset store (some e) (some code) (some p2) salt).2
        (some e) (some p1) =
      .err 401 "Invalid credentials" := by
  have h1 : confirmReset store (some e) (some code) (some p2) salt =
      (.ok 200 "Password reset successfully",
        store.set (normalizeEmail e)
          { u with passwordHash := bcryptHash p2 salt, resetCode := none }) := by
    simp [confirmReset, truthy, he, hcode, hp2, hu, hreset]
  have hget : ((confirmReset store (some e) (some code) (some p2) salt).2).get
      (normalizeEmail e) =
      some { u with passwordHash := bcryptHash p2 salt, resetCode := none } := by
    rw [h1]
    exact UserStore.get_set_self _ _ _
  refine ⟨by rw [h1], hget, ?_, ?_⟩
  · set s2 := (confirmReset store (some e) (some code) (some p2) salt).2 with hs2
    simp [login, truthy, he, hp2, hget, hver, bcryptCompare, bcryptHash, jwtSign]
  · set s2 := (confirmReset store (some e) (some code) (some p2) salt).2 with hs2
    simp [login, truthy, he, hp1, hget, hver, bcryptCompare, bcryptHash, hne]

/-- Witness for C7 (amended) at a concrete store. -/
theorem confirmReset_rotates_password_witness :
    (("a@x.com" : String) ≠ "" ∧ ("333333" : String) ≠ "" ∧
      ("p2" : String) ≠ "" ∧ ("pw1" : String) ≠ "" ∧
      UserStore.get [("a@x.com", { uVerified with resetCode := some "333333" })]
        (normalizeEmail "a@x.com") =
        some { uVerified with resetCode := some "333333" } ∧
      ({ uVerified with resetCode := some "333333" } : UserRecord).isVerified = true ∧
      ({ uVerified with resetCode := some "333333" } : UserRecord).passwordHash =
        bcryptHash "pw1" 0 ∧
      ({ uVerified with resetCode := some "333333" } : UserRecord).resetCode =
        some "333333" ∧
      ("pw1" : String) ≠ "p2") ∧
    ((confirmReset [("a@x.com", { uVerified with resetCode := some "333333" })]
        (some "a@x.com") (some "333333") (some "p2") 1).1 =
        .ok 200 "Password reset successfully" ∧
      ((confirmReset [("a@x.com", { uVerified with resetCode := some "333333" })]
          (some "a@x.com") (some "333333") (some "p2") 1).2).get
        (normalizeEmail "a@x.com") =
        some { ({ uVerified with resetCode := some "333333" } : UserRecord) with
                 passwordHash := bcryptHash "p2" 1, resetCode := none } ∧
      login (confirmReset [("a@x.com", { uVerified with resetCode := some "333333" })]
          (some "a@x.com") (some "333333") (some "p2") 1).2
          (some "a@x.com") (some "p2") =
        .ok 200 { accessToken := { sub := ({ uVerified with resetCode := some "333333" } : UserRecord).email,
                                   walletAddress := ({ uVerified with resetCode := some "333333" } : UserRecord).walletAddress },
                  email := ({ uVerified with resetCode := some "333333" } : UserRecord).email,
                  walletAddress := ({ uVerified with resetCode := some "333333" } : UserRecord).walletAddress } ∧
      login (confirmReset [("a@x.com", { uVerified with resetCode := some "333333" })]
          (some "a@x.com") (some "333333") (some "p2") 1).2
          (some "a@x.com") (some "pw1") =
        .err 401 "Invalid credentials") :=
  ⟨by decide,
    confirmReset_rotates_password
      [("a@x.com", { uVerified with resetCode := some "333333" })]
      "a@x.com" "pw1" "p2" "333333" { uVerified with resetCode := some "333333" }
      0 1 (by decide) (by decide) (by decide) (by decide) (by decide) (by decide)
      (by decide) (by decide) (by decide)⟩

/-! ### C8: a second requestReset overwrites the first pending code -/

/-- C8: calling `requestReset` twice leaves the second code stored on the
account; `confirmReset` with the second code then succeeds, while
`confirmReset` with the first (different) code is rejected with HTTP 400
`Invalid reset code`, leaving the store unchanged. -/
theorem requestReset_twice_second_code_wins
    (store : UserStore) (e c1 c2 newPw : String) (u : UserRecord) (salt : Nat)
    (he : e ≠ "") (hc1 : c1 ≠ "") (hc2 : c2 ≠ "") (hnp : newPw ≠ "")
    (hu : store.get (normalizeEmail e) = some u)
    (hne : c1 ≠ c2) :
    ((requestReset (requestReset store (some e) c1).2 (some e) c2).2).get
      (normalizeEmail e) = some { u with resetCode := some c2 } ∧
    (confirmReset (requestReset (requestReset store (some e) c1).2 (some e) c2).2
        (some e) (some c2) (some newPw) salt).1 =
      .ok 200 "Password reset successfully" ∧
    confirmReset (requestReset (requestReset store (some e) c1).2 (some e) c2).2
        (some e) (some c1) (some newPw) salt =
      (.err 400 "Invalid reset code",
        (requestReset (requestReset store (some e) c1).2 (some e) c2).2) := by
  have hget1 : ((requestReset store (some e) c1).2).get (normalizeEmail e) =
      some { u with resetCode := some c1 } := by
    simp [requestReset, truthy, he, hu, UserStore.get_set_self]
  set s1 := (requestReset store (some e) c1).2 with hs1
  have hget2 : ((requestReset s1 (some e) c2).2).get (normalizeEmail e) =
      some { u with resetCode := some c2 } := by
    simp [requestReset, truthy, he, hget1, UserStore.get_set_self]
  set s2 := (requestReset s1 (some e) c2).2 with hs2
  refine ⟨hget2, ?_, ?_⟩
  · simp [confirmReset, truthy, he, hc2, hnp, hget2]
  · simp [confirmReset, truthy, he, hc1, hnp, hget2, Ne.symm hne]

/-- Witness for C8 at a concrete store. -/
theorem requestReset_twice_second_code_wins_witness :
    (("a@x.com" : String) ≠ "" ∧ ("444444" : String) ≠ "" ∧
      ("555555" : String) ≠ "" ∧ ("np" : String) ≠ "" ∧
      storeVerified.get (normalizeEmail "a@x.com") = some uVerified ∧
      ("444444" : String) ≠ "555555") ∧
    (((requestReset (requestReset storeVerified (some "a@x.com") "444444").2
          (some "a@x.com") "555555").2).get (normalizeEmail "a@x.com") =
        some { uVerified with resetCode := some "555555" } ∧
      (confirmReset (requestReset (requestReset storeVerified (some "a@x.com") "444444").2
          (some "a@x.com") "555555").2
          (some "a@x.com") (some "555555") (some "np") 2).1 =
        .ok 200 "Password reset successfully" ∧
      confirmReset (requestReset (requestReset storeVerified (some "a@x.com") "444444").2
          (some "a@x.com") "555555").2
          (some "a@x.com") (some "444444") (some "np") 2 =
        (.err 400 "Invalid reset code",
          (requestReset (requestReset storeVerified (some "a@x.com") "444444").2
            (some "a@x.com") "555555").2)) :=
  ⟨by decide,
    requestReset_twice_second_code_wins storeVerified "a@x.com" "444444" "555555"
      "np" uVerified 2 (by decide) (by decide) (by decide) (by decide) (by decide)
      (by decide)⟩

/-! ### C9: walletAddress passthrough -/

/-- C9 counterexample: signing up with the (falsy) empty-string wallet
address stores `walletAddress` as absent, not as the supplied empty string:
`walletAddress || undefined` coerces it away. -/
theorem walletAddress_empty_cex :
    ((signup [] (some "a@x.com") (some "pw") (some "") 0 "123456").2.get
        "a@x.com").map UserRecord.walletAddress = some none ∧
    ((signup [] (some "a@x.com") (some "pw") (some "") 0 "123456").2.get
        "a@x.com").map UserRecord.walletAddress ≠ some (some "") := by decide

/-- C9 (amended): every NON-EMPTY walletAddress string supplied at signup is
stored on the account unchanged and returned unchanged — in the token's
claims and as the response field — by a subsequent successful login. -/
theorem walletAddress_passthrough
    (store : UserStore) (e p w vc : String) (salt : Nat)
    (he : e ≠ "") (hp : p ≠ "") (hw : w ≠ "")
    (hfresh : store.has (normalizeEmail e) = false)
    (hgen : isGeneratedCode vc = true) :
    ((signup store (some e) (some p) (some w) salt vc).2).get (normalizeEmail e) =
      some { email := normalizeEmail e, passwordHash := ⟨salt, p⟩,
             isVerified := false, verificationCode := some vc,
             resetCode := none, walletAddress := some w } ∧
    login (verifyEmail (signup store (some e) (some p) (some w) salt vc).2
        (some e) (some vc)).2 (some e) (some p) =
      .ok 200 { accessToken := { sub := normalizeEmail e, walletAddress := some w },
                email := normalizeEmail e, walletAddress := some w } := by
  have hvc : vc ≠ "" := isGeneratedCode_ne_empty vc hgen
  have h1 : signup store (some e) (some p) (some w) salt vc =
      (.ok 201 "User created successfully. Please check your email for verification code.",
        store.set (normalizeEmail e)
          { email := normalizeEmail e, passwordHash := ⟨salt, p⟩,
            isVerified := false, verificationCode := some vc,
            resetCode := none, walletAddress := some w }) := by
    simp [signup, truthy, he, hp, hw, hfresh, bcryptHash]
  have hget1 : ((signup store (some e) (some p) (some w) salt vc).2).get
      (normalizeEmail e) =
      some { email := normalizeEmail e, passwordHash := ⟨salt, p⟩,
             isVerified := false, verificationCode := some vc,
             resetCode := none, walletAddress := some w } := by
    rw [h1]
    exact UserStore.get_set_self _ _ _
  set s1 := (signup store (some e) (some p) (some w) salt vc).2 with hs1
  have hget2 : ((verifyEmail s1 (some e) (some vc)).2).get (normalizeEmail e) =
      some { email := normalizeEmail e, passwordHash := ⟨salt, p⟩,
             isVerified := true, verificationCode := none,
             resetCode := none, walletAddress := some w } := by
    have h2 : verifyEmail s1 (some e) (some vc) =
        (.ok 200 "Email verified successfully",
          s1.set (normalizeEmail e)
            { email := normalizeEmail e, passwordHash := ⟨salt, p⟩,
              isVerified := true, verificationCode := none,
              resetCode := none, walletAddress := some w }) := by
      simp [verifyEmail, truthy, he, hvc, hget1]
    rw [h2]
    exact UserStore.get_set_self _ _ _
  refine ⟨hget1, ?_⟩
  set s2 := (verifyEmail s1 (some e) (some vc)).2 with hs2
  simp [login, truthy, he, hp, hget2, bcryptCompare, jwtSign]

/-- Witness for C9 (amended) at the empty store. -/
theorem walletAddress_passthrough_witness :
    (("a@x.com" : String) ≠ "" ∧ ("pw" : String) ≠ "" ∧
      ("0xABC" : String) ≠ "" ∧
      UserStore.has [] (normalizeEmail "a@x.com") = false ∧
      isGeneratedCode "123456" = true) ∧
    (((signup [] (some "a@x.com") (some "pw") (some "0xABC") 0 "123456").2).get
        (normalizeEmail "a@x.com") =
        some { email := normalizeEmail "a@x.com", passwordHash := ⟨0, "pw"⟩,
               isVerified := false, verificationCode := some "123456",
               resetCode := none, walletAddress := some "0xABC" } ∧
      login (verifyEmail (signup [] (some "a@x.com") (some "pw") (some "0xABC") 0 "123456").2
          (some "a@x.com") (some "123456")).2 (some "a@x.com") (some "pw") =
        .ok 200 { accessToken := { sub := normalizeEmail "a@x.com",
                                   walletAddress := some "0xABC" },
                  email := normalizeEmail "a@x.com",
                  walletAddress := some "0xABC" }) :=
  ⟨by decide,
    walletAddress_passthrough [] "a@x.com" "pw" "0xABC" "123456" 0
      (by decide) (by decide) (by decide) (by decide) (by decide)⟩

/-! ### C10: whitespace-only emails slip past the missing-input check -/

/-- C10: the missing-input check runs on the raw email before normalization,
so a non-empty, all-whitespace email is accepted: signup succeeds with
HTTP 201 and stores an account whose key and `email` field are both the
empty string, and any other whitespace-only email normalizes to the same
empty-string key and reaches that account on lookup. -/
theorem signup_whitespace_email
    (store : UserStore) (e p vc e2 : String) (salt : Nat)
    (he : e ≠ "") (hws : e.data.all Char.isWhitespace = true)
    (hp : p ≠ "")
    (hfresh : store.has "" = false)
    (he2 : e2 ≠ "") (hws2 : e2.data.all Char.isWhitespace = true) :
    signup store (some e) (some p) none salt vc =
      (.ok 201 "User created successfully. Please check your email for verification code.",
        store.set "" { email := "", passwordHash := ⟨salt, p⟩,
                       isVerified := false, verificationCode := some vc,
                       resetCode := none, walletAddress := none }) ∧
    ((signup store (some e) (some p) none salt vc).2).get (normalizeEmail e2) =
      some { email := "", passwordHash := ⟨salt, p⟩, isVerified := false,
             verificationCode := some vc, resetCode := none,
             walletAddress := none } := by
  have hn : normalizeEmail e = "" := normalizeEmail_of_whitespace e hws
  have hn2 : normalizeEmail e2 = "" := normalizeEmail_of_whitespace e2 hws2
  have h1 : signup store (some e) (some p) none salt vc =
      (.ok 201 "User created successfully. Please check your email for verification code.",
        store.set "" { email := "", passwordHash := ⟨salt, p⟩,
                       isVerified := false, verificationCode := some vc,
                       resetCode := none, walletAddress := none }) := by
    simp [signup, truthy, he, hp, hn, hfresh, bcryptHash]
  refine ⟨h1, ?_⟩
  rw [h1, hn2]
  exact UserStore.get_set_self _ _ _

/-- Witness for C10 with the single-space and tab emails. -/
theorem signup_whitespace_email_witness :
    ((" " : String) ≠ "" ∧ (" ".data.all Char.isWhitespace = true) ∧
      ("pw" : String) ≠ "" ∧ UserStore.has [] "" = false ∧
      ("\t" : String) ≠ "" ∧ ("\t".data.all Char.isWhitespace = true)) ∧
    (signup [] (some " ") (some "pw") none 0 "123456" =
        (.ok 201 "User created successfully. Please check your email for verification code.",
          UserStore.set [] "" { email := "", passwordHash := ⟨0, "pw"⟩,
                                isVerified := false, verificationCode := some "123456",
                                resetCode := none, walletAddress := none }) ∧
      ((signup [] (some " ") (some "pw") none 0 "123456").2).get
          (normalizeEmail "\t") =
        some { email := "", passwordHash := ⟨0, "pw"⟩, isVerified := false,
               verificationCode := some "123456", resetCode := none,
               walletAddress := none }) :=
  ⟨by decide,
    signup_whitespace_email [] " " "pw" "123456" "\t" 0
      (by decide) (by decide) (by decide) (by decide) (by decide) (by decide)⟩
